import Mathlib

/-!
Verification development for the react-div-100vh package
(packages/react-div-100vh/src/index.tsx).

The package exports three cooperating pieces:
- measureViewportHeight: a pure query of the host environment;
- useDynamicViewportHeight: a hook holding the last measured height, with a
  readiness flag for hydration safety and resize/orientationchange listeners;
- DynamicViewportDiv: a wrapper that renders the measured height as an inline
  style, falling back to a configurable string, with a one-shot module-level
  development warning.

The shallow embedding below models the host environment explicitly, the
wrapper as a function from props and process state to rendered style and
process state, and the hook as a state machine whose steps are the externally
observable events (re-render, resize notification, orientationchange
notification, unmount), following the commit-then-run-effects semantics of
the rendering framework.
-/

set_option maxHeartbeats 1000000

namespace ReactDiv100vh

/-- Model of the host window object. innerHeight is present exactly when
typeof window.innerHeight is the string "number"; visualViewport is present
exactly when window.visualViewport is an object (objects are always truthy),
and then carries that object's numeric height. -/
structure HostWindow where
  innerHeight : Option Nat
  visualViewport : Option Nat
deriving DecidableEq

/-- Model of the host environment. window is present exactly when typeof
window is not "undefined"; hasDocument is true exactly when typeof document
is not "undefined". -/
structure Env where
  window : Option HostWindow
  hasDocument : Bool
deriving DecidableEq

/-- Embeds isBrowserEnvironment:
typeof window is defined, typeof document is defined, and
typeof window.innerHeight is a number. -/
def isBrowserEnvironment (env : Env) : Bool :=
  match env.window with
  | none => false
  | some w => env.hasDocument && w.innerHeight.isSome

/-- Embeds measureViewportHeight: null outside a browser environment; the
visualViewport height when the visualViewport object exists; otherwise
window.innerHeight. The function is total, so it never throws. -/
def measureViewportHeight (env : Env) : Option Nat :=
  if !(isBrowserEnvironment env) then none
  else
    match env.window with
    | none => none
    | some w =>
      match w.visualViewport with
      | some vvHeight => some vvHeight
      | none => w.innerHeight

/-- Process-wide mutable state of the module: the hasWarned flag declared at
module level, plus an instrumentation counter of console.warn emissions. -/
structure ProcState where
  hasWarned : Bool
  warnCount : Nat
deriving DecidableEq

/-- A consumer-supplied inline style: the height property (a string, absent
when not set) and the remaining style properties, which the wrapper passes
through untouched. -/
structure Style where
  height : Option String := none
  otherProps : List (String × String) := []
deriving DecidableEq

/-- Embeds the DynamicViewportOptions bundle; each field is absent when the
consumer did not supply it. onHeightChange is modelled by the identity of the
supplied callback (a tag), since only its identity and call sites matter. -/
structure DynamicViewportOptions where
  suppressWarnings : Option Bool := none
  onHeightChange : Option Nat := none
  fallbackHeight : Option String := none
deriving DecidableEq

/-- JS truthiness of the optional style height string (style?.height):
absent and the empty string are falsy. -/
def styleHeightTruthy : Option String → Bool
  | none => false
  | some s => s ≠ ""

/-- JS truthiness of the nullable numeric height: null and 0 are falsy. -/
def jsTruthyHeight : Option Nat → Bool
  | none => false
  | some h => h != 0

/-- The template literal interpolating the nullable height before "px";
null stringifies to "null" (that branch is unreachable under truthiness). -/
def heightPx : Option Nat → String
  | some h => toString h ++ "px"
  | none => "null" ++ "px"

/-- Embeds the render body of DynamicViewportDiv. Inputs: whether
process.env.NODE_ENV is "development", the consumer style, the options
bundle, the height returned by useDynamicViewportHeight for this render,
and the module-level process state. Output: the style of the rendered div
and the updated process state. Ref forwarding and children are pass-through
and not modelled. -/
def DynamicViewportDiv (isDev : Bool) (style : Style)
    (options : DynamicViewportOptions) (height : Option Nat)
    (ps : ProcState) : Style × ProcState :=
  let suppressWarnings := options.suppressWarnings.getD false
  let fallbackHeight := options.fallbackHeight.getD "100vh"
  let ps1 :=
    if isDev && !ps.hasWarned && !suppressWarnings && styleHeightTruthy style.height then
      { hasWarned := true, warnCount := ps.warnCount + 1 }
    else ps
  let computedStyle : Style :=
    { style with
        height := some (if jsTruthyHeight height then heightPx height else fallbackHeight) }
  (computedStyle, ps1)

/-- One wrapper render: the per-render inputs of DynamicViewportDiv. -/
structure WrapperRender where
  isDev : Bool
  style : Style
  options : DynamicViewportOptions
  height : Option Nat
deriving DecidableEq

/-- The module-level state at process start: hasWarned is declared false and
no warning has been emitted. -/
def initialProcState : ProcState := { hasWarned := false, warnCount := 0 }

/-- Threads the module-level process state through an arbitrary sequence of
wrapper renders (any number of instances and re-renders, in any order). -/
def runWrapperRenders (renders : List WrapperRender) : ProcState :=
  renders.foldl
    (fun ps r => (DynamicViewportDiv r.isDev r.style r.options r.height ps).2)
    initialProcState

/-- State of one mounted useDynamicViewportHeight instance, together with the
host environment and instrumentation. Fields mirror the source:
height and isClientRendered are the two useState cells; cbId is the identity
of the currently supplied onHeightChange (the useCallback dependency), where
an absent callback is just one more stable identity; resizeListeners and
orientListeners are the window listener registries for the two event names;
effectDeps is the dependency pair (isClientRendered, updateHeight identity)
recorded at the last run of the listener effect; activeCleanup is the
updateHeight identity captured by the currently registered effect cleanup.
The four call counters and callbackLog (recorded onHeightChange invocations,
as pairs of callback identity and argument) and lastMeasured (result of the
most recent measureViewportHeight call) are instrumentation. -/
structure HookState where
  env : Env
  height : Option Nat
  isClientRendered : Bool
  cbId : Nat
  resizeListeners : List Nat
  orientListeners : List Nat
  effectDeps : Option (Bool × Nat)
  activeCleanup : Option Nat
  addResizeCalls : Nat
  addOrientCalls : Nat
  removeResizeCalls : Nat
  removeOrientCalls : Nat
  callbackLog : List (Nat × Option Nat)
  lastMeasured : Option Nat
deriving DecidableEq

/-- DOM addEventListener registry semantics: adding a listener already
registered for the event is a no-op, otherwise it is appended. -/
def domAdd (l : List Nat) (id : Nat) : List Nat :=
  if id ∈ l then l else l ++ [id]

/-- DOM removeEventListener registry semantics: the first matching listener
is removed; removing an unregistered listener is a no-op. -/
def domRemove (l : List Nat) (id : Nat) : List Nat := l.erase id

/-- Embeds the updateHeight closure (captured callback identity c) invoked on
the current state: re-measure, and inside the functional setHeight update
compare with the previous height; when different, call onHeightChange with
the new height and store it; when identical, return the previous value
unchanged (so the framework bails out of a re-render). lastMeasured is
instrumentation recording the measurement taken. -/
def updateHeight (c : Nat) (s : HookState) : HookState :=
  if s.height ≠ measureViewportHeight s.env then
    { s with
        height := measureViewportHeight s.env
        callbackLog := s.callbackLog ++ [(c, measureViewportHeight s.env)]
        lastMeasured := measureViewportHeight s.env }
  else
    { s with lastMeasured := measureViewportHeight s.env }

/-- Runs the currently registered effect cleanup, if any: it removes exactly
the resize listener and the orientationchange listener it registered
(the updateHeight closure it captured). -/
def runCleanup (s : HookState) : HookState :=
  match s.activeCleanup with
  | none => s
  | some old =>
    { s with
        resizeListeners := domRemove s.resizeListeners old
        orientListeners := domRemove s.orientListeners old
        removeResizeCalls := s.removeResizeCalls + 1
        removeOrientCalls := s.removeOrientCalls + 1
        activeCleanup := none }

/-- The body of the listener effect: early return before the client is
rendered; otherwise set the initial client height via updateHeight, register
the resize and orientationchange listeners, and install the cleanup. -/
def effectBody (s : HookState) : HookState :=
  if !s.isClientRendered then s
  else
    let s1 := updateHeight s.cbId s
    { s1 with
        resizeListeners := domAdd s1.resizeListeners s1.cbId
        orientListeners := domAdd s1.orientListeners s1.cbId
        addResizeCalls := s1.addResizeCalls + 1
        addOrientCalls := s1.addOrientCalls + 1
        activeCleanup := some s1.cbId }

/-- A render commit: the listener effect re-runs exactly when its dependency
pair (isClientRendered, updateHeight identity) differs from the recorded one,
first running the previous cleanup, then the body, then recording the new
dependencies. -/
def commit (s : HookState) : HookState :=
  let deps : Bool × Nat := (s.isClientRendered, s.cbId)
  if s.effectDeps = some deps then s
  else
    let s1 := effectBody (runCleanup s)
    { s1 with effectDeps := some deps }

/-- The state produced by the first render of the hook: height is initialised
by one synchronous measureViewportHeight call (the initial guess of the lazy
useState initialiser), and the useIsClientRendered cell starts false. -/
def mountState (env : Env) (c : Nat) : HookState :=
  { env := env
    height := measureViewportHeight env
    isClientRendered := false
    cbId := c
    resizeListeners := []
    orientListeners := []
    effectDeps := none
    activeCleanup := none
    addResizeCalls := 0
    addOrientCalls := 0
    removeResizeCalls := 0
    removeOrientCalls := 0
    callbackLog := []
    lastMeasured := measureViewportHeight env }

/-- A flushed mount: the first commit runs the listener effect while
isClientRendered is still false (early return), and the mount effect of
useIsClientRendered schedules the readiness flip; the resulting re-render
commits with isClientRendered true, which re-runs the listener effect. -/
def mount (env : Env) (c : Nat) : HookState :=
  let s1 := commit (mountState env c)
  commit { s1 with isClientRendered := true }

/-- Externally observable events driving a mounted hook: a parent re-render
supplying a callback identity, a resize notification, and an
orientationchange notification; the notifications also carry the new host
environment at dispatch time. -/
inductive Step where
  | rerender (c : Nat)
  | resize (e : Env)
  | orient (e : Env)
deriving DecidableEq

/-- Dispatch of a resize event: the environment changes, then every listener
registered for resize fires in registration order. -/
def dispatchResize (e : Env) (s : HookState) : HookState :=
  let s1 := { s with env := e }
  s1.resizeListeners.foldl (fun t c => updateHeight c t) s1

/-- Dispatch of an orientationchange event: the environment changes, then
every listener registered for orientationchange fires in registration
order. -/
def dispatchOrient (e : Env) (s : HookState) : HookState :=
  let s1 := { s with env := e }
  s1.orientListeners.foldl (fun t c => updateHeight c t) s1

/-- One observable step followed by the commit of the re-render it causes. -/
def step : Step → HookState → HookState
  | .rerender c, s => commit { s with cbId := c }
  | .resize e, s => commit (dispatchResize e s)
  | .orient e, s => commit (dispatchOrient e s)

/-- The hook over its lifetime: the model of useDynamicViewportHeight is the
state reached from a flushed mount in environment env with callback identity
c after a sequence of observable steps. -/
def useDynamicViewportHeight (env : Env) (c : Nat) (steps : List Step) : HookState :=
  steps.foldl (fun s st => step st s) (mount env c)

/-- Unmount: the framework runs the registered effect cleanup. -/
def unmount (s : HookState) : HookState := runCleanup s

/-- The value the hook returns to its caller on a render from state s:
null until the client is rendered, the held height afterwards. -/
def hookValue (s : HookState) : Option Nat :=
  if s.isClientRendered then s.height else none

/-- A world for purity statements: the host environment together with the
module-level process state. -/
structure World where
  env : Env
  proc : ProcState
deriving DecidableEq

/-- One call of measureViewportHeight as a state transformer on the world:
the body only reads window and its properties, so the world is returned
unchanged. -/
def measureViewportHeightCall (w : World) : Option Nat × World :=
  (measureViewportHeight w.env, w)

/-- n successive calls of measureViewportHeight, collecting the results and
threading the world through every call. -/
def measureViewportHeightCalls : Nat → World → List (Option Nat) × World
  | 0, w => ([], w)
  | n + 1, w =>
    let r := measureViewportHeightCall w
    let rest := measureViewportHeightCalls n r.2
    (r.1 :: rest.1, rest.2)

/-- Legacy export: export const Div100vh = DynamicViewportDiv. -/
def Div100vh := DynamicViewportDiv

/-- Legacy export: export const use100vh = useDynamicViewportHeight. -/
def use100vh := useDynamicViewportHeight

/-- Legacy export: export const measureHeight = measureViewportHeight. -/
def measureHeight := measureViewportHeight

/-- The default export of the module: export default DynamicViewportDiv. -/
def defaultExport := DynamicViewportDiv

/-- Invariant of a mounted, flushed hook instance: the client is rendered,
the held height is the most recent measurement, exactly one resize listener
and one orientationchange listener (the current updateHeight closure) are
registered, the recorded effect dependencies match the current ones, and the
registered cleanup captures the current callback identity. -/
def Invariant (s : HookState) : Prop :=
  s.isClientRendered = true ∧
  s.height = s.lastMeasured ∧
  s.resizeListeners = [s.cbId] ∧
  s.orientListeners = [s.cbId] ∧
  s.effectDeps = some (true, s.cbId) ∧
  s.activeCleanup = some s.cbId

/-- Strengthened invariant used for the listener-count claims: on top of
Invariant, the callback identity is the mount one and each add counter is
exactly one while each remove counter is zero. -/
def ListenersOnce (c : Nat) (s : HookState) : Prop :=
  Invariant s ∧ s.cbId = c ∧
  s.addResizeCalls = 1 ∧ s.addOrientCalls = 1 ∧
  s.removeResizeCalls = 0 ∧ s.removeOrientCalls = 0

/-- Whether a step keeps the change-callback identity fixed at c: any parent
re-render must supply identity c; notifications always qualify. -/
def rerenderIdsFixed (c : Nat) : Step → Bool
  | .rerender c2 => c2 == c
  | .resize _ => true
  | .orient _ => true

/-- Invariant of the module-level process state: while the flag is still
false no warning has been emitted, and never more than one warning is
emitted. -/
def ProcInv (ps : ProcState) : Prop :=
  (ps.hasWarned = false → ps.warnCount = 0) ∧ ps.warnCount ≤ 1

/-! ### Helper lemmas -/

/-- The fully flushed mount computes to an explicit state: one listener per
event, both add counters at one, no removals, and the height equal to the
measurement (the effect re-measured, and at mount the environment is
unchanged, so the comparison in updateHeight sees equal values). -/
theorem mount_eq (env : Env) (c : Nat) :
    mount env c =
      { env := env
        height := measureViewportHeight env
        isClientRendered := true
        cbId := c
        resizeListeners := [c]
        orientListeners := [c]
        effectDeps := some (true, c)
        activeCleanup := some c
        addResizeCalls := 1
        addOrientCalls := 1
        removeResizeCalls := 0
        removeOrientCalls := 0
        callbackLog := []
        lastMeasured := measureViewportHeight env } := by
  unfold mount mountState commit runCleanup effectBody updateHeight domAdd
  simp

@[simp] theorem updateHeight_env (c : Nat) (s : HookState) :
    (updateHeight c s).env = s.env := by
  unfold updateHeight; split <;> rfl

@[simp] theorem updateHeight_isClientRendered (c : Nat) (s : HookState) :
    (updateHeight c s).isClientRendered = s.isClientRendered := by
  unfold updateHeight; split <;> rfl

@[simp] theorem updateHeight_cbId (c : Nat) (s : HookState) :
    (updateHeight c s).cbId = s.cbId := by
  unfold updateHeight; split <;> rfl

@[simp] theorem updateHeight_resizeListeners (c : Nat) (s : HookState) :
    (updateHeight c s).resizeListeners = s.resizeListeners := by
  unfold updateHeight; split <;> rfl

@[simp] theorem updateHeight_orientListeners (c : Nat) (s : HookState) :
    (updateHeight c s).orientListeners = s.orientListeners := by
  unfold updateHeight; split <;> rfl

@[simp] theorem updateHeight_effectDeps (c : Nat) (s : HookState) :
    (updateHeight c s).effectDeps = s.effectDeps := by
  unfold updateHeight; split <;> rfl

@[simp] theorem updateHeight_activeCleanup (c : Nat) (s : HookState) :
    (updateHeight c s).activeCleanup = s.activeCleanup := by
  unfold updateHeight; split <;> rfl

@[simp] theorem updateHeight_addResizeCalls (c : Nat) (s : HookState) :
    (updateHeight c s).addResizeCalls = s.addResizeCalls := by
  unfold updateHeight; split <;> rfl

@[simp] theorem updateHeight_addOrientCalls (c : Nat) (s : HookState) :
    (updateHeight c s).addOrientCalls = s.addOrientCalls := by
  unfold updateHeight; split <;> rfl

@[simp] theorem updateHeight_removeResizeCalls (c : Nat) (s : HookState) :
    (updateHeight c s).removeResizeCalls = s.removeResizeCalls := by
  unfold updateHeight; split <;> rfl

@[simp] theorem updateHeight_removeOrientCalls (c : Nat) (s : HookState) :
    (updateHeight c s).removeOrientCalls = s.removeOrientCalls := by
  unfold updateHeight; split <;> rfl

@[simp] theorem updateHeight_lastMeasured (c : Nat) (s : HookState) :
    (updateHeight c s).lastMeasured = measureViewportHeight s.env := by
  unfold updateHeight; split <;> rfl

/-- After any invocation of updateHeight the held height equals the
measurement just taken, whether or not the state was updated. -/
theorem updateHeight_height (c : Nat) (s : HookState) :
    (updateHeight c s).height = measureViewportHeight s.env := by
  unfold updateHeight
  by_cases h : s.height ≠ measureViewportHeight s.env
  · simp [h]
  · rw [ne_eq, not_not] at h
    simp [h]

/-- A commit whose dependency pair is unchanged does nothing. -/
theorem commit_skip (s : HookState)
    (h : s.effectDeps = some (s.isClientRendered, s.cbId)) :
    commit s = s := by
  unfold commit
  simp [h]

/-- With exactly one registered resize listener, dispatching a resize event
amounts to one invocation of the updateHeight closure in the new
environment. -/
theorem dispatchResize_single (e : Env) (s : HookState)
    (h : s.resizeListeners = [s.cbId]) :
    dispatchResize e s = updateHeight s.cbId { s with env := e } := by
  unfold dispatchResize
  simp [h]

/-- With exactly one registered orientationchange listener, dispatching the
event amounts to one invocation of the updateHeight closure in the new
environment. -/
theorem dispatchOrient_single (e : Env) (s : HookState)
    (h : s.orientListeners = [s.cbId]) :
    dispatchOrient e s = updateHeight s.cbId { s with env := e } := by
  unfold dispatchOrient
  simp [h]

/-- The flushed mount satisfies the mounted-hook invariant. -/
theorem invariant_mount (env : Env) (c : Nat) : Invariant (mount env c) := by
  simp [Invariant, mount_eq]

/-- Every observable step preserves the mounted-hook invariant. -/
theorem invariant_step (st : Step) (s : HookState) (h : Invariant s) :
    Invariant (step st s) := by
  obtain ⟨h1, h2, h3, h4, h5, h6⟩ := h
  cases st with
  | rerender c =>
    by_cases hc : c = s.cbId
    · subst hc
      have hs : ({ s with cbId := s.cbId } : HookState) = s := rfl
      rw [step, hs, commit_skip s (by rw [h1]; exact h5)]
      exact ⟨h1, h2, h3, h4, h5, h6⟩
    · rw [step]
      unfold commit runCleanup effectBody domAdd domRemove
      simp [Invariant, h1, h3, h4, h5, h6, Ne.symm hc, updateHeight_height]
  | resize e =>
    rw [step, dispatchResize_single e s h3]
    have hskip : commit (updateHeight s.cbId { s with env := e })
        = updateHeight s.cbId { s with env := e } := by
      apply commit_skip
      simp [h1, h5]
    rw [hskip]
    exact ⟨by simp [h1], by rw [updateHeight_height, updateHeight_lastMeasured],
      by simp [h3], by simp [h4], by simp [h5], by simp [h6]⟩
  | orient e =>
    rw [step, dispatchOrient_single e s h4]
    have hskip : commit (updateHeight s.cbId { s with env := e })
        = updateHeight s.cbId { s with env := e } := by
      apply commit_skip
      simp [h1, h5]
    rw [hskip]
    exact ⟨by simp [h1], by rw [updateHeight_height, updateHeight_lastMeasured],
      by simp [h3], by simp [h4], by simp [h5], by simp [h6]⟩

/-- Every observable step that keeps the callback identity fixed preserves
the strengthened listener-count invariant. -/
theorem listenersOnce_step (c : Nat) (st : Step) (s : HookState)
    (h : ListenersOnce c s) (hst : rerenderIdsFixed c st = true) :
    ListenersOnce c (step st s) := by
  obtain ⟨⟨h1, h2, h3, h4, h5, h6⟩, hcb, ha1, ha2, hr1, hr2⟩ := h
  subst hcb
  cases st with
  | rerender c2 =>
    have hc2 : c2 = s.cbId := by simpa [rerenderIdsFixed] using hst
    subst hc2
    have hs : ({ s with cbId := s.cbId } : HookState) = s := rfl
    rw [step, hs, commit_skip s (by rw [h1]; exact h5)]
    exact ⟨⟨h1, h2, h3, h4, h5, h6⟩, rfl, ha1, ha2, hr1, hr2⟩
  | resize e =>
    rw [step, dispatchResize_single e s h3, commit_skip _ (by simp [h1, h5])]
    exact ⟨⟨by simp [h1], by rw [updateHeight_height, updateHeight_lastMeasured],
      by simp [h3], by simp [h4], by simp [h5], by simp [h6]⟩,
      by simp, by simp [ha1], by simp [ha2], by simp [hr1], by simp [hr2]⟩
  | orient e =>
    rw [step, dispatchOrient_single e s h4, commit_skip _ (by simp [h1, h5])]
    exact ⟨⟨by simp [h1], by rw [updateHeight_height, updateHeight_lastMeasured],
      by simp [h3], by simp [h4], by simp [h5], by simp [h6]⟩,
      by simp, by simp [ha1], by simp [ha2], by simp [hr1], by simp [hr2]⟩

/-- The mounted-hook invariant is preserved by any sequence of observable
steps. -/
theorem invariant_foldl (steps : List Step) (s : HookState) (h : Invariant s) :
    Invariant (steps.foldl (fun t st => step st t) s) := by
  induction steps generalizing s with
  | nil => exact h
  | cons st rest ih =>
    rw [List.foldl_cons]
    exact ih _ (invariant_step st s h)

/-- The state of the hook after any lifetime satisfies the mounted-hook
invariant. -/
theorem invariant_run (env : Env) (c : Nat) (steps : List Step) :
    Invariant (useDynamicViewportHeight env c steps) :=
  invariant_foldl steps (mount env c) (invariant_mount env c)

/-- The flushed mount satisfies the strengthened listener-count invariant. -/
theorem listenersOnce_mount (env : Env) (c : Nat) :
    ListenersOnce c (mount env c) := by
  simp [ListenersOnce, Invariant, mount_eq]

/-- The strengthened listener-count invariant is preserved by any sequence
of observable steps that keeps the callback identity fixed. -/
theorem listenersOnce_foldl (c : Nat) (steps : List Step) (s : HookState)
    (h : ListenersOnce c s) (hst : steps.all (rerenderIdsFixed c) = true) :
    ListenersOnce c (steps.foldl (fun t st => step st t) s) := by
  induction steps generalizing s with
  | nil => exact h
  | cons st rest ih =>
    rw [List.all_cons, Bool.and_eq_true] at hst
    rw [List.foldl_cons]
    exact ih _ (listenersOnce_step c st s h hst.1) hst.2

/-- The state of the hook after any lifetime with a fixed callback identity
satisfies the strengthened listener-count invariant. -/
theorem listenersOnce_run (env : Env) (c : Nat) (steps : List Step)
    (hst : steps.all (rerenderIdsFixed c) = true) :
    ListenersOnce c (useDynamicViewportHeight env c steps) :=
  listenersOnce_foldl c steps (mount env c) (listenersOnce_mount env c) hst

/-- Unmounting from a state satisfying the listener-count invariant removes
each listener exactly once and empties both registries. -/
theorem unmount_of_listenersOnce (c : Nat) (s : HookState)
    (h : ListenersOnce c s) :
    unmount s =
      { s with
          resizeListeners := []
          orientListeners := []
          removeResizeCalls := s.removeResizeCalls + 1
          removeOrientCalls := s.removeOrientCalls + 1
          activeCleanup := none } := by
  obtain ⟨⟨h1, h2, h3, h4, h5, h6⟩, hcb, ha1, ha2, hr1, hr2⟩ := h
  unfold unmount runCleanup domRemove
  simp [h6, h3, h4]

/-- Dispatching an event on a state with empty listener registries only
records the new environment: no listener fires, no callback runs, no state
is touched. -/
theorem dispatch_empty (e : Env) (s : HookState)
    (hres : s.resizeListeners = []) (hor : s.orientListeners = []) :
    dispatchResize e s = { s with env := e } ∧
    dispatchOrient e s = { s with env := e } := by
  unfold dispatchResize dispatchOrient
  simp [hres, hor]

/-- Case analysis of one updateHeight invocation after the environment moved
to e: when the fresh measurement differs from the held height, the height,
the callback log and lastMeasured are updated; when it is identical, only
the environment and the instrumentation field change. -/
theorem updateHeight_policy (c : Nat) (e : Env) (s : HookState) :
    (measureViewportHeight e ≠ s.height →
      updateHeight c { s with env := e }
        = { s with
              env := e
              height := measureViewportHeight e
              callbackLog := s.callbackLog ++ [(c, measureViewportHeight e)]
              lastMeasured := measureViewportHeight e }) ∧
    (measureViewportHeight e = s.height →
      updateHeight c { s with env := e }
        = { s with env := e, lastMeasured := measureViewportHeight e }) := by
  constructor
  · intro hne
    unfold updateHeight
    simp [Ne.symm hne]
  · intro heq
    unfold updateHeight
    simp [heq]

/-- Every wrapper render preserves the process-state invariant. -/
theorem procInv_step (r : WrapperRender) (ps : ProcState) (h : ProcInv ps) :
    ProcInv (DynamicViewportDiv r.isDev r.style r.options r.height ps).2 := by
  obtain ⟨h1, h2⟩ := h
  unfold DynamicViewportDiv
  dsimp only
  by_cases hc : (r.isDev && !ps.hasWarned && !(r.options.suppressWarnings.getD false)
      && styleHeightTruthy r.style.height) = true
  · have hw : ps.hasWarned = false := by
      simp only [Bool.and_eq_true, Bool.not_eq_true'] at hc
      exact hc.1.1.2
    rw [if_pos hc]
    exact ⟨(by simp), (by dsimp only; have := h1 hw; omega)⟩
  · rw [if_neg hc]
    exact ⟨h1, h2⟩

/-- The process-state invariant is preserved by any sequence of wrapper
renders. -/
theorem procInv_foldl (renders : List WrapperRender) (ps : ProcState)
    (h : ProcInv ps) :
    ProcInv (renders.foldl
      (fun t r => (DynamicViewportDiv r.isDev r.style r.options r.height t).2)
      ps) := by
  induction renders generalizing ps with
  | nil => exact h
  | cons r rest ih =>
    rw [List.foldl_cons]
    exact ih _ (procInv_step r ps h)

/-- The process state after any sequence of wrapper renders satisfies the
process-state invariant. -/
theorem procInv_runWrapperRenders (renders : List WrapperRender) :
    ProcInv (runWrapperRenders renders) :=
  procInv_foldl renders initialProcState ⟨fun _ => rfl, Nat.zero_le 1⟩

/-! ### Claim theorems -/

/-- Claim C1, counterexample to the claim as stated: with a present (non
null) measurement of 0 pixels, the wrapper renders the default fallback
string "100vh" and not the string "0px" that the claim requires for every
non-null measurement. -/
theorem wrapper_dimension_claim_counterexample :
    (DynamicViewportDiv false {} {} (some 0) initialProcState).1.height
      = some "100vh" ∧
    (some "100vh" : Option String) ≠ some "0px" := by
  constructor
  · rfl
  · decide

/-- Claim C1, amended: for every render of the wrapper, the rendered style
height is the measured height followed by "px" whenever the subscribed
measurement is available and nonzero; when the measurement is absent it is
the configured fallback string, whose default is "100vh". -/
theorem wrapper_dimension_amended (isDev : Bool) (style : Style)
    (options : DynamicViewportOptions) (ps : ProcState) (n : Nat)
    (hn : n ≠ 0) :
    (DynamicViewportDiv isDev style options (some n) ps).1.height
      = some (toString n ++ "px") ∧
    (DynamicViewportDiv isDev style options none ps).1.height
      = some (options.fallbackHeight.getD "100vh") ∧
    (DynamicViewportDiv isDev style { options with fallbackHeight := none }
        none ps).1.height
      = some "100vh" := by
  refine ⟨?_, ?_, ?_⟩
  · unfold DynamicViewportDiv
    simp [jsTruthyHeight, heightPx, hn]
  · unfold DynamicViewportDiv
    simp [jsTruthyHeight]
  · unfold DynamicViewportDiv
    simp [jsTruthyHeight]

/-- Witness for the amended claim C1 at a concrete nonzero measurement. -/
theorem wrapper_dimension_amended_witness :
    (768 : Nat) ≠ 0 ∧
    (DynamicViewportDiv false {} {} (some 768) initialProcState).1.height
      = some (toString 768 ++ "px") :=
  ⟨by decide,
   (wrapper_dimension_amended false {} {} initialProcState 768 (by decide)).1⟩

/-- Claim C2: on the two renders before the readiness transition the hook
returns null, even though the synchronously computed initial guess is
already held in state; after the flushed mount, across every sequence of
observable steps, the hook returns exactly the most recent measurement
taken. -/
theorem hook_null_until_ready_then_last_measurement (env : Env) (c : Nat)
    (steps : List Step) :
    (mountState env c).height = measureViewportHeight env ∧
    hookValue (mountState env c) = none ∧
    hookValue (commit (mountState env c)) = none ∧
    hookValue (useDynamicViewportHeight env c steps)
      = (useDynamicViewportHeight env c steps).lastMeasured := by
  refine ⟨rfl, rfl, ?_, ?_⟩
  · unfold commit mountState runCleanup effectBody hookValue
    simp
  · obtain ⟨h1, h2, _⟩ := invariant_run env c steps
    simp [hookValue, h1, h2]

/-- Claim C3: over any hook lifetime whose re-renders keep the callback
identity fixed (notifications allowed), addEventListener is called exactly
once for resize and once for orientationchange, removeEventListener not at
all, and exactly one listener per event is registered; unmounting removes
each exactly once, emptying the registries, and dispatching either event
afterwards only records the new environment, so no listener fires after
teardown. -/
theorem listeners_registered_exactly_once (env : Env) (c : Nat)
    (steps : List Step) (e2 : Env)
    (hst : steps.all (rerenderIdsFixed c) = true) :
    (useDynamicViewportHeight env c steps).addResizeCalls = 1 ∧
    (useDynamicViewportHeight env c steps).addOrientCalls = 1 ∧
    (useDynamicViewportHeight env c steps).removeResizeCalls = 0 ∧
    (useDynamicViewportHeight env c steps).removeOrientCalls = 0 ∧
    (useDynamicViewportHeight env c steps).resizeListeners = [c] ∧
    (useDynamicViewportHeight env c steps).orientListeners = [c] ∧
    (unmount (useDynamicViewportHeight env c steps)).removeResizeCalls = 1 ∧
    (unmount (useDynamicViewportHeight env c steps)).removeOrientCalls = 1 ∧
    (unmount (useDynamicViewportHeight env c steps)).resizeListeners = [] ∧
    (unmount (useDynamicViewportHeight env c steps)).orientListeners = [] ∧
    dispatchResize e2 (unmount (useDynamicViewportHeight env c steps))
      = { unmount (useDynamicViewportHeight env c steps) with env := e2 } ∧
    dispatchOrient e2 (unmount (useDynamicViewportHeight env c steps))
      = { unmount (useDynamicViewportHeight env c steps) with env := e2 } := by
  have hLO := listenersOnce_run env c steps hst
  have hun := unmount_of_listenersOnce c _ hLO
  obtain ⟨⟨h1, h2, h3, h4, h5, h6⟩, hcb, ha1, ha2, hr1, hr2⟩ := hLO
  have hres : (unmount (useDynamicViewportHeight env c steps)).resizeListeners
      = [] := by rw [hun]
  have hor : (unmount (useDynamicViewportHeight env c steps)).orientListeners
      = [] := by rw [hun]
  have hd := dispatch_empty e2 _ hres hor
  refine ⟨ha1, ha2, hr1, hr2, (by rw [h3, hcb]), (by rw [h4, hcb]), ?_, ?_,
    hres, hor, hd.1, hd.2⟩
  · rw [hun, hr1]
  · rw [hun, hr2]

/-- Witness for claim C3 on a concrete lifetime: a re-render with the same
callback identity followed by a resize notification. -/
theorem listeners_registered_exactly_once_witness :
    ([Step.rerender 5, Step.resize ⟨some ⟨some 640, none⟩, true⟩].all
      (rerenderIdsFixed 5)) = true ∧
    (useDynamicViewportHeight ⟨some ⟨some 800, none⟩, true⟩ 5
      [Step.rerender 5, Step.resize ⟨some ⟨some 640, none⟩, true⟩]).addResizeCalls
      = 1 :=
  ⟨by decide,
   (listeners_registered_exactly_once ⟨some ⟨some 800, none⟩, true⟩ 5
      [Step.rerender 5, Step.resize ⟨some ⟨some 640, none⟩, true⟩]
      ⟨none, false⟩ (by decide)).1⟩

/-- Claim C4: on every change notification (resize or orientationchange) the
mounted hook re-measures; when the fresh measurement differs from the held
height, the change callback is invoked with the new value and the held state
is updated; when it is identical, the state is untouched apart from the new
environment and the instrumentation record of the measurement, so no state
update and no callback happens. -/
theorem notification_update_policy (e : Env) (s : HookState)
    (h : Invariant s) :
    (measureViewportHeight e ≠ s.height →
      (step (Step.resize e) s).height = measureViewportHeight e ∧
      (step (Step.resize e) s).callbackLog
        = s.callbackLog ++ [(s.cbId, measureViewportHeight e)] ∧
      (step (Step.orient e) s).height = measureViewportHeight e ∧
      (step (Step.orient e) s).callbackLog
        = s.callbackLog ++ [(s.cbId, measureViewportHeight e)]) ∧
    (measureViewportHeight e = s.height →
      step (Step.resize e) s
        = { s with env := e, lastMeasured := measureViewportHeight e } ∧
      step (Step.orient e) s
        = { s with env := e, lastMeasured := measureViewportHeight e }) := by
  obtain ⟨h1, h2, h3, h4, h5, h6⟩ := h
  have hres : step (Step.resize e) s = updateHeight s.cbId { s with env := e } := by
    rw [step, dispatchResize_single e s h3, commit_skip _ (by simp [h1, h5])]
  have hor : step (Step.orient e) s = updateHeight s.cbId { s with env := e } := by
    rw [step, dispatchOrient_single e s h4, commit_skip _ (by simp [h1, h5])]
  constructor
  · intro hne
    rw [hres, hor, (updateHeight_policy s.cbId e s).1 hne]
    exact ⟨rfl, rfl, rfl, rfl⟩
  · intro heq
    rw [hres, hor, (updateHeight_policy s.cbId e s).2 heq]
    exact ⟨rfl, rfl⟩

/-- Witness for claim C4: from a mount at 800 pixels, a resize notification
measuring 700 pixels updates the held height to 700. -/
theorem notification_update_policy_witness :
    measureViewportHeight ⟨some ⟨some 700, none⟩, true⟩
      ≠ (mount ⟨some ⟨some 800, none⟩, true⟩ 0).height ∧
    (step (Step.resize ⟨some ⟨some 700, none⟩, true⟩)
        (mount ⟨some ⟨some 800, none⟩, true⟩ 0)).height = some 700 :=
  ⟨by decide,
   ((notification_update_policy ⟨some ⟨some 700, none⟩, true⟩
      (mount ⟨some ⟨some 800, none⟩, true⟩ 0)
      (invariant_mount ⟨some ⟨some 800, none⟩, true⟩ 0)).1 (by decide)).1⟩

/-- Claim C5: the development advisory fires at most once per process: the
module-level flag starts false and no sequence of wrapper renders of any
instances emits more than one warning; once the flag is true a render leaves
the process state completely unchanged, so the flag is never reset and never
set again. -/
theorem advisory_fires_at_most_once (renders : List WrapperRender)
    (r : WrapperRender) (ps : ProcState) (hps : ps.hasWarned = true) :
    initialProcState.hasWarned = false ∧
    (runWrapperRenders renders).warnCount ≤ 1 ∧
    (DynamicViewportDiv r.isDev r.style r.options r.height ps).2 = ps := by
  refine ⟨rfl, (procInv_runWrapperRenders renders).2, ?_⟩
  unfold DynamicViewportDiv
  simp [hps]

/-- Witness for claim C5: with the flag already set, a development render
with a conflicting style height changes nothing. -/
theorem advisory_fires_at_most_once_witness :
    (⟨true, 1⟩ : ProcState).hasWarned = true ∧
    (runWrapperRenders []).warnCount ≤ 1 ∧
    (DynamicViewportDiv true { height := some "50px" } {} none ⟨true, 1⟩).2
      = ⟨true, 1⟩ :=
  ⟨rfl,
   (advisory_fires_at_most_once []
      { isDev := true, style := { height := some "50px" }, options := {},
        height := none } ⟨true, 1⟩ rfl).2.1,
   (advisory_fires_at_most_once []
      { isDev := true, style := { height := some "50px" }, options := {},
        height := none } ⟨true, 1⟩ rfl).2.2⟩

/-- Claim C6: in every non-host environment (no window, no document, or no
numeric innerHeight) the measurement function returns null, never a number;
being a total function of the environment, it cannot throw. -/
theorem nonhost_measurement_returns_none (env : Env)
    (h : env.window = none ∨ env.hasDocument = false ∨
      ∃ w, env.window = some w ∧ w.innerHeight = none) :
    measureViewportHeight env = none := by
  have hb : isBrowserEnvironment env = false := by
    rcases h with h | h | ⟨w, hw, hih⟩
    · simp [isBrowserEnvironment, h]
    · cases hwin : env.window with
      | none => simp [isBrowserEnvironment, hwin]
      | some w => simp [isBrowserEnvironment, hwin, h]
    · simp [isBrowserEnvironment, hw, hih]
  unfold measureViewportHeight
  simp [hb]

/-- Witness for claim C6 at the fully absent environment. -/
theorem nonhost_measurement_returns_none_witness :
    (Env.mk none false).window = none ∧
    measureViewportHeight (Env.mk none false) = none :=
  ⟨rfl, nonhost_measurement_returns_none ⟨none, false⟩ (Or.inl rfl)⟩

/-- Claim C7: in every host environment, the visualViewport height is
returned when that capability is present; otherwise window.innerHeight is
returned (which the environment check guarantees to be a number). -/
theorem host_measurement_prefers_visual_viewport (env : Env)
    (w : HostWindow) (hw : env.window = some w)
    (hb : isBrowserEnvironment env = true) :
    (∀ vvHeight, w.visualViewport = some vvHeight →
      measureViewportHeight env = some vvHeight) ∧
    (w.visualViewport = none →
      measureViewportHeight env = w.innerHeight ∧
        w.innerHeight.isSome = true) := by
  constructor
  · intro vvHeight hvv
    unfold measureViewportHeight
    simp [hb, hw, hvv]
  · intro hvv
    have hih : w.innerHeight.isSome = true := by
      rw [isBrowserEnvironment, hw, Bool.and_eq_true] at hb
      exact hb.2
    refine ⟨?_, hih⟩
    unfold measureViewportHeight
    simp [hb, hw, hvv]

/-- Witness for claim C7: with both capabilities present, the visualViewport
height of 600 wins over the innerHeight of 800. -/
theorem host_measurement_prefers_visual_viewport_witness :
    isBrowserEnvironment ⟨some ⟨some 800, some 600⟩, true⟩ = true ∧
    measureViewportHeight ⟨some ⟨some 800, some 600⟩, true⟩ = some 600 :=
  ⟨by decide,
   (host_measurement_prefers_visual_viewport ⟨some ⟨some 800, some 600⟩, true⟩
      ⟨some 800, some 600⟩ rfl (by decide)).1 600 rfl⟩

/-- Claim C8: the measurement function is pure, deterministic and
idempotent: any number of successive calls against a fixed world leaves the
world (host environment and module state) unchanged, and every call returns
the same result. -/
theorem measurement_pure_and_idempotent (n : Nat) (w : World) :
    (measureViewportHeightCalls n w).2 = w ∧
    (measureViewportHeightCalls n w).1
      = List.replicate n (measureViewportHeight w.env) := by
  induction n with
  | zero => exact ⟨rfl, rfl⟩
  | succ k ih =>
    unfold measureViewportHeightCalls measureViewportHeightCall
    exact ⟨ih.1, by rw [List.replicate_succ]; exact congrArg _ ih.2⟩

/-- Claim C9: the three legacy-named exports are aliases: Div100vh is the
wrapper (also the default export), use100vh is the subscription hook, and
measureHeight is the measurement function. -/
theorem legacy_exports_are_aliases :
    Div100vh = DynamicViewportDiv ∧
    use100vh = useDynamicViewportHeight ∧
    measureHeight = measureViewportHeight ∧
    defaultExport = DynamicViewportDiv :=
  ⟨rfl, rfl, rfl, rfl⟩

/-- Claim C10: a present measurement of exactly 0 pixels renders the
configured fallback instead of the string "0px", because the truthiness test
treats 0 like null. -/
theorem zero_height_renders_fallback (isDev : Bool) (style : Style)
    (options : DynamicViewportOptions) (ps : ProcState) :
    (DynamicViewportDiv isDev style options (some 0) ps).1.height
      = some (options.fallbackHeight.getD "100vh") ∧
    jsTruthyHeight (some 0) = false ∧
    jsTruthyHeight none = false := by
  refine ⟨?_, rfl, rfl⟩
  unfold DynamicViewportDiv
  simp [jsTruthyHeight]

end ReactDiv100vh
